import Mathlib

/-!
Verification of the gesture-detection and hand-calibration core of the
Touchless Keyboard repository (`src/core/gesture_handler.py`,
`src/core/calibration.py`).

Numbers are modelled as exact reals: Python floats become `ℝ`, Python ints
become `ℤ`/`ℕ`.  Python's `x ** 0.5` on a non-negative argument is
`Real.sqrt`.  Python's `int(x)` (truncation toward zero) is `pyTrunc`.
Stateful methods become functions from the state to (result × new state).
Methods that raise become functions returning the new state together with
an `Option CalibError` (Python `raise` can leave earlier field assignments
in place, so the state is returned even on the error path).
-/

namespace TouchlessKeyboard

/-- Python `int(x)`: truncation toward zero. -/
noncomputable def pyTrunc (x : ℝ) : ℤ := if 0 ≤ x then ⌊x⌋ else ⌈x⌉

/-- One hand landmark `[x, y, z]` in pixel/camera space. -/
structure Landmark where
  x : ℝ
  y : ℝ
  z : ℝ

/-- Indexing `hand_landmarks[i]` on a landmark list. -/
def landmarkAt (lm : List Landmark) (i : ℕ) : Landmark := lm.getD i ⟨0, 0, 0⟩

/-- `calculate_distance(p1, p2)`: planar Euclidean distance
`((p1[0]-p2[0])**2 + (p1[1]-p2[1])**2) ** 0.5`, identical in
`HandCalibration` and `GestureDetector`. -/
noncomputable def calculate_distance (p1 p2 : Landmark) : ℝ :=
  Real.sqrt ((p1.x - p2.x) ^ 2 + (p1.y - p2.y) ^ 2)

/-- State of `GestureSmoothing`: a window size and a `deque(maxlen=window_size)`
of recent distances (most recent last). -/
structure GestureSmoothing where
  window_size : ℕ
  distances : List ℝ

/-- `GestureSmoothing.__init__(window_size=5)`. -/
def newGestureSmoothing (window_size : ℕ) : GestureSmoothing :=
  { window_size := window_size, distances := [] }

/-- `GestureSmoothing.smooth`: append to the deque (the deque itself drops
the oldest entries beyond `window_size`) and return
`sum(self.distances) / len(self.distances)` with the new state. -/
noncomputable def GestureSmoothing.smooth (sm : GestureSmoothing) (distance : ℝ) :
    ℝ × GestureSmoothing :=
  let ds := (sm.distances ++ [distance]).drop
    ((sm.distances ++ [distance]).length - sm.window_size)
  (ds.sum / ds.length, { sm with distances := ds })

/-- `GestureSmoothing.reset`: clear the buffer. -/
def GestureSmoothing.reset (sm : GestureSmoothing) : GestureSmoothing :=
  { sm with distances := [] }

/-- Errors raised by `HandCalibration.calibrate` (both are `CalibrationError`
in the source; we distinguish the two raise sites). -/
inductive CalibError
  | insufficientSamples
  | invalidHandSize
deriving DecidableEq

/-- State of `HandCalibration`. -/
structure HandCalibration where
  hand_size : Option ℝ
  click_threshold : ℤ
  exit_threshold : ℤ
  calibrated : Bool
  calibration_samples : List ℝ

/-- `HandCalibration.__init__`: `hand_size = None`, `click_threshold = 50`,
`exit_threshold = 40`, `calibrated = False`, empty sample list. -/
def newHandCalibration : HandCalibration :=
  { hand_size := none, click_threshold := 50, exit_threshold := 40,
    calibrated := false, calibration_samples := [] }

/-- `HandCalibration.add_calibration_sample`: measure the span between
landmark 2 (thumb MCP) and landmark 17 (pinky MCP) and append it. -/
noncomputable def add_calibration_sample (cal : HandCalibration)
    (hand_landmarks : List Landmark) : HandCalibration :=
  let thumb_base := landmarkAt hand_landmarks 2
  let pinky_base := landmarkAt hand_landmarks 17
  let hand_span := calculate_distance thumb_base pinky_base
  { cal with calibration_samples := cal.calibration_samples ++ [hand_span] }

/-- `HandCalibration.calibrate(num_samples=30)`.  Mirrors the source order:
the insufficient-samples check, then the assignment `self.hand_size = mean`,
then the plausibility check (so a failed plausibility check has already
overwritten `hand_size`), then thresholds `int(hand_size * 0.12)` /
`int(hand_size * 0.10)` clamped by `max(30, min(70, ·))` / `max(25, min(60, ·))`,
then `calibrated = True`. -/
noncomputable def calibrate (cal : HandCalibration) (num_samples : ℕ) :
    HandCalibration × Option CalibError :=
  if cal.calibration_samples.length < num_samples then
    (cal, some .insufficientSamples)
  else
    let mean := cal.calibration_samples.sum / (cal.calibration_samples.length : ℝ)
    let cal1 : HandCalibration := { cal with hand_size := some mean }
    if mean < 50 ∨ mean > 500 then
      (cal1, some .invalidHandSize)
    else
      let ct := max 30 (min 70 (pyTrunc (mean * 0.12)))
      let et := max 25 (min 60 (pyTrunc (mean * 0.10)))
      ({ cal1 with click_threshold := ct, exit_threshold := et, calibrated := true },
       none)

/-- The JSON record written by `save_calibration` / read by `load_calibration`.
Each field is `some v` when the key is present in the file (for `hand_size`
the value itself may be JSON `null`, hence the inner `Option`), `none` when
the key is absent (reading an absent key raises `KeyError` in the source). -/
structure JsonRecord where
  hand_size : Option (Option ℝ)
  click_threshold : Option ℤ
  exit_threshold : Option ℤ

/-- `HandCalibration.save_calibration`: writes nothing when uncalibrated,
otherwise writes the record `{hand_size, click_threshold, exit_threshold}`. -/
def save_calibration (cal : HandCalibration) : Option JsonRecord :=
  if cal.calibrated then
    some { hand_size := some cal.hand_size,
           click_threshold := some cal.click_threshold,
           exit_threshold := some cal.exit_threshold }
  else
    none

/-- What reading the calibration file can yield: the file is missing
(`FileNotFoundError`), the file is unreadable or fails JSON parsing
(any other exception before the field assignments), or a parsed record. -/
inductive LoadSource
  | missingFile
  | unreadable
  | content (r : JsonRecord)

/-- `HandCalibration.load_calibration`.  The source assigns
`hand_size`, `click_threshold`, `exit_threshold`, `calibrated = True` in
that order inside a `try`; a `KeyError` on a missing key aborts the
remaining assignments but keeps the ones already made, and every exception
is caught, returning `False`. -/
def load_calibration (cal : HandCalibration) : LoadSource → HandCalibration × Bool
  | .missingFile => (cal, false)
  | .unreadable => (cal, false)
  | .content r =>
    match r.hand_size with
    | none => (cal, false)
    | some hs =>
      let cal1 : HandCalibration := { cal with hand_size := hs }
      match r.click_threshold with
      | none => (cal1, false)
      | some ct =>
        let cal2 : HandCalibration := { cal1 with click_threshold := ct }
        match r.exit_threshold with
        | none => (cal2, false)
        | some et =>
          ({ cal2 with exit_threshold := et, calibrated := true }, true)

/-- `validate_sample` from `src/core/calibration.py`: a sample is valid when
it has exactly 21 landmarks and the thumb-base-to-pinky-base span lies in
`[MIN_HAND_SIZE, MAX_HAND_SIZE] = [50, 500]`. -/
noncomputable def validate_sample (hand_landmarks : List Landmark) : Bool :=
  if hand_landmarks.length ≠ 21 then false
  else
    let thumb_base := landmarkAt hand_landmarks 2
    let pinky_base := landmarkAt hand_landmarks 17
    let span := Real.sqrt ((thumb_base.x - pinky_base.x) ^ 2 +
      (thumb_base.y - pinky_base.y) ^ 2)
    decide (50 ≤ span ∧ span ≤ 500)

/-- One sampling tick of `CalibrationUI.run_calibration` in the `collecting`
state with a hand present: validate the sample, and only on success append it
(`add_calibration_sample`) and advance `current_samples`; the returned flag
records whether the sample was accepted (a rejected one is reported to the
user instead). -/
noncomputable def collectStep (cal : HandCalibration) (current_samples : ℕ)
    (lmList : List Landmark) : HandCalibration × ℕ × Bool :=
  if validate_sample lmList then
    (add_calibration_sample cal lmList, current_samples + 1, true)
  else
    (cal, current_samples, false)

/-- State of `GestureDetector`. -/
structure GestureDetector where
  click_delay : ℝ
  last_click_time : ℝ
  use_smoothing : Bool
  click_smoother : Option GestureSmoothing
  exit_smoother : Option GestureSmoothing
  calibration : HandCalibration

/-- `GestureDetector.__init__(click_delay=0.7, use_smoothing=True,
calibration=None)`. -/
def newGestureDetector (click_delay : ℝ) (use_smoothing : Bool)
    (calibration : Option HandCalibration) : GestureDetector :=
  { click_delay := click_delay, last_click_time := 0,
    use_smoothing := use_smoothing,
    click_smoother := if use_smoothing then some (newGestureSmoothing 5) else none,
    exit_smoother := if use_smoothing then some (newGestureSmoothing 5) else none,
    calibration := calibration.getD newHandCalibration }

/-- `GestureDetector.detect_click(hand_landmarks, current_time)`: distance
between landmarks 4 (thumb tip) and 8 (index tip), optionally smoothed;
fires — returning `(True, distance)` and setting `last_click_time` — iff the
smoothed distance is strictly below the calibration's click threshold and
strictly more than `click_delay` has elapsed since the last click. -/
noncomputable def detect_click (st : GestureDetector) (hand_landmarks : List Landmark)
    (current_time : ℝ) : (Bool × ℝ) × GestureDetector :=
  let thumb_tip := landmarkAt hand_landmarks 4
  let index_tip := landmarkAt hand_landmarks 8
  let distance0 := calculate_distance thumb_tip index_tip
  let sd : ℝ × GestureDetector :=
    if st.use_smoothing then
      match st.click_smoother with
      | some sm =>
        let q := sm.smooth distance0
        (q.1, { st with click_smoother := some q.2 })
      | none => (distance0, st)
    else (distance0, st)
  let distance := sd.1
  let st1 := sd.2
  let threshold := st.calibration.click_threshold
  let time_since_last_click := current_time - st.last_click_time
  if distance < (threshold : ℝ) ∧ time_since_last_click > st.click_delay then
    ((true, distance), { st1 with last_click_time := current_time })
  else
    ((false, distance), st1)

/-- `GestureDetector.detect_exit(hand_landmarks)`: distance between landmarks
4 (thumb tip) and 12 (middle tip), optionally smoothed; returns
`(distance < exit_threshold, distance)` with no debounce. -/
noncomputable def detect_exit (st : GestureDetector) (hand_landmarks : List Landmark) :
    (Bool × ℝ) × GestureDetector :=
  let thumb_tip := landmarkAt hand_landmarks 4
  let middle_tip := landmarkAt hand_landmarks 12
  let distance0 := calculate_distance thumb_tip middle_tip
  let sd : ℝ × GestureDetector :=
    if st.use_smoothing then
      match st.exit_smoother with
      | some sm =>
        let q := sm.smooth distance0
        (q.1, { st with exit_smoother := some q.2 })
      | none => (distance0, st)
    else (distance0, st)
  let distance := sd.1
  let st1 := sd.2
  let threshold := st.calibration.exit_threshold
  ((decide (distance < (threshold : ℝ)), distance), st1)

/-- `GestureDetector.reset_smoothing`: reset both smoothers when present. -/
def reset_smoothing (st : GestureDetector) : GestureDetector :=
  { st with click_smoother := st.click_smoother.map GestureSmoothing.reset,
            exit_smoother := st.exit_smoother.map GestureSmoothing.reset }

/-- Folding a sequence of `smooth` pushes over a smoothing buffer,
keeping only the final state. -/
noncomputable def smoothAll (sm : GestureSmoothing) (vs : List ℝ) : GestureSmoothing :=
  vs.foldl (fun s v => (s.smooth v).2) sm

/-- The smoothed value actually used by `detect_click`: the raw planar
distance between landmarks 4 and 8, pushed through the click smoother when
smoothing is enabled and a smoother is present. -/
noncomputable def clickDistance (st : GestureDetector) (lm : List Landmark) : ℝ :=
  if st.use_smoothing then
    match st.click_smoother with
    | some sm => (sm.smooth (calculate_distance (landmarkAt lm 4) (landmarkAt lm 8))).1
    | none => calculate_distance (landmarkAt lm 4) (landmarkAt lm 8)
  else calculate_distance (landmarkAt lm 4) (landmarkAt lm 8)

section Helpers

/-- Evaluation helper: `Real.sqrt a = b` once `a` is recognised as `b ^ 2`. -/
lemma sqrt_eval {a b : ℝ} (hb : 0 ≤ b) (h : a = b ^ 2) : Real.sqrt a = b := by
  rw [h]
  exact Real.sqrt_sq hb

/-- The last `W` entries of a list (all of it when it is shorter than `W`):
the contents of a `deque(maxlen=W)` after the elements of `l` were pushed in
order. -/
def lastWindow {α : Type} (W : ℕ) (l : List α) : List α := l.drop (l.length - W)

lemma lastWindow_of_le {α : Type} {W : ℕ} {l : List α} (h : l.length ≤ W) :
    lastWindow W l = l := by
  unfold lastWindow
  rw [Nat.sub_eq_zero_of_le h, List.drop_zero]

lemma lastWindow_length {α : Type} (W : ℕ) (l : List α) :
    (lastWindow W l).length = min W l.length := by
  unfold lastWindow
  rw [List.length_drop]
  omega

/-- Re-windowing is absorbed by a later window over a longer history. -/
lemma lastWindow_append {α : Type} (W : ℕ) (l t : List α) :
    lastWindow W (lastWindow W l ++ t) = lastWindow W (l ++ t) := by
  rcases le_or_lt l.length W with h | h
  · rw [lastWindow_of_le h]
  · unfold lastWindow
    have hd : (l.drop (l.length - W)).length = W := by
      rw [List.length_drop]; omega
    rw [List.length_append, List.length_append, hd,
      List.drop_append_eq_append_drop, List.drop_append_eq_append_drop,
      List.drop_drop, hd]
    congr 2 <;> omega

lemma smooth_eq (sm : GestureSmoothing) (v : ℝ) :
    sm.smooth v =
      ((lastWindow sm.window_size (sm.distances ++ [v])).sum /
        ((lastWindow sm.window_size (sm.distances ++ [v])).length : ℝ),
       { sm with distances := lastWindow sm.window_size (sm.distances ++ [v]) }) :=
  rfl

lemma smoothAll_spec (vs : List ℝ) : ∀ sm : GestureSmoothing,
    sm.distances.length ≤ sm.window_size →
    (smoothAll sm vs).window_size = sm.window_size ∧
    (smoothAll sm vs).distances = lastWindow sm.window_size (sm.distances ++ vs) := by
  induction vs with
  | nil =>
    intro sm h
    refine ⟨rfl, ?_⟩
    rw [List.append_nil, lastWindow_of_le h]
    rfl
  | cons v vs ih =>
    intro sm h
    have hstep : smoothAll sm (v :: vs) = smoothAll (sm.smooth v).2 vs := rfl
    have h2 : ((sm.smooth v).2).distances.length ≤ ((sm.smooth v).2).window_size := by
      rw [smooth_eq]
      simpa using (lastWindow_length sm.window_size (sm.distances ++ [v])).le.trans
        (by simp)
    obtain ⟨hw, hd⟩ := ih (sm.smooth v).2 h2
    rw [hstep]
    constructor
    · rw [hw, smooth_eq]
    · rw [hd, smooth_eq]
      show lastWindow sm.window_size
          (lastWindow sm.window_size (sm.distances ++ [v]) ++ vs) = _
      rw [lastWindow_append, List.append_assoc]
      rfl

lemma foldl_add_sample (lms : List (List Landmark)) : ∀ cal : HandCalibration,
    (List.foldl add_calibration_sample cal lms).calibration_samples.length
      = cal.calibration_samples.length + lms.length ∧
    (List.foldl add_calibration_sample cal lms).calibrated = cal.calibrated ∧
    (List.foldl add_calibration_sample cal lms).click_threshold
      = cal.click_threshold := by
  induction lms with
  | nil => intro cal; simp
  | cons lm lms ih =>
    intro cal
    obtain ⟨h1, h2, h3⟩ := ih (add_calibration_sample cal lm)
    refine ⟨?_, ?_, ?_⟩
    · rw [List.foldl_cons, h1]
      simp [add_calibration_sample]
      omega
    · rw [List.foldl_cons, h2]
      simp [add_calibration_sample]
    · rw [List.foldl_cons, h3]
      simp [add_calibration_sample]

/-- The mean hand span `sum(samples) / len(samples)` computed by `calibrate`. -/
noncomputable def sampleMean (cal : HandCalibration) : ℝ :=
  cal.calibration_samples.sum / (cal.calibration_samples.length : ℝ)

lemma calibrate_def (cal : HandCalibration) (n : ℕ) :
    calibrate cal n =
      if cal.calibration_samples.length < n then
        (cal, some CalibError.insufficientSamples)
      else if sampleMean cal < 50 ∨ sampleMean cal > 500 then
        ({ cal with hand_size := some (sampleMean cal) },
         some CalibError.invalidHandSize)
      else
        ({ cal with hand_size := some (sampleMean cal),
                    click_threshold := max 30 (min 70 (pyTrunc (sampleMean cal * 0.12))),
                    exit_threshold := max 25 (min 60 (pyTrunc (sampleMean cal * 0.10))),
                    calibrated := true }, none) := rfl

lemma calibrate_eq_insufficient (cal : HandCalibration) (n : ℕ)
    (h : cal.calibration_samples.length < n) :
    calibrate cal n = (cal, some CalibError.insufficientSamples) := by
  rw [calibrate_def, if_pos h]

lemma calibrate_eq_invalid (cal : HandCalibration) (n : ℕ)
    (h1 : n ≤ cal.calibration_samples.length)
    (h2 : sampleMean cal < 50 ∨ sampleMean cal > 500) :
    calibrate cal n
      = ({ cal with hand_size := some (sampleMean cal) },
         some CalibError.invalidHandSize) := by
  rw [calibrate_def, if_neg (Nat.not_lt.mpr h1), if_pos h2]

lemma calibrate_eq_success (cal : HandCalibration) (n : ℕ)
    (h1 : n ≤ cal.calibration_samples.length)
    (h2 : 50 ≤ sampleMean cal) (h3 : sampleMean cal ≤ 500) :
    calibrate cal n
      = ({ cal with hand_size := some (sampleMean cal),
                    click_threshold := max 30 (min 70 (pyTrunc (sampleMean cal * 0.12))),
                    exit_threshold := max 25 (min 60 (pyTrunc (sampleMean cal * 0.10))),
                    calibrated := true }, none) := by
  have h2' : ¬ (sampleMean cal < 50 ∨ sampleMean cal > 500) := by
    push_neg
    exact ⟨h2, h3⟩
  rw [calibrate_def, if_neg (Nat.not_lt.mpr h1), if_neg h2']

end Helpers

/-- C5: `calibrate` raises the insufficient-samples condition exactly when
fewer than `num_samples` samples were collected; with enough samples (and a
non-empty sample list, so the mean is defined) it raises the invalid-size
condition exactly when the mean span is below 50 or above 500, and succeeds
exactly when the mean lies in the inclusive interval `[50, 500]`. -/
theorem calibrate_error_conditions :
    (∀ (cal : HandCalibration) (n : ℕ),
      ((calibrate cal n).2 = some CalibError.insufficientSamples
        ↔ cal.calibration_samples.length < n)) ∧
    (∀ (cal : HandCalibration) (n : ℕ),
      n ≤ cal.calibration_samples.length → 0 < cal.calibration_samples.length →
      (((calibrate cal n).2 = some CalibError.invalidHandSize
          ↔ (sampleMean cal < 50 ∨ sampleMean cal > 500)) ∧
       ((calibrate cal n).2 = none
          ↔ (50 ≤ sampleMean cal ∧ sampleMean cal ≤ 500)))) := by
  constructor
  · intro cal n
    by_cases hlen : cal.calibration_samples.length < n
    · rw [calibrate_eq_insufficient cal n hlen]
      simp [hlen]
    · have h1 := Nat.not_lt.mp hlen
      by_cases hv : sampleMean cal < 50 ∨ sampleMean cal > 500
      · rw [calibrate_eq_invalid cal n h1 hv]
        simp [hlen]
      · push_neg at hv
        rw [calibrate_eq_success cal n h1 hv.1 hv.2]
        simp [hlen]
  · intro cal n h1 _
    by_cases hv : sampleMean cal < 50 ∨ sampleMean cal > 500
    · rw [calibrate_eq_invalid cal n h1 hv]
      constructor
      · exact ⟨fun _ => hv, fun _ => rfl⟩
      · constructor
        · intro h
          exact Option.noConfusion h
        · intro hm
          rcases hv with hv | hv
          · exact absurd hv (not_lt.mpr hm.1)
          · exact absurd hv (not_lt.mpr hm.2)
    · push_neg at hv
      rw [calibrate_eq_success cal n h1 hv.1 hv.2]
      constructor
      · constructor
        · intro h
          exact Option.noConfusion h
        · intro h
          rcases h with h | h
          · exact absurd h (not_lt.mpr hv.1)
          · exact absurd h (not_lt.mpr hv.2)
      · exact ⟨fun _ => hv, fun _ => rfl⟩

/-- C5 witness: a mean span of exactly 50 and of exactly 500 both succeed
(inclusive bounds), and a fresh instance with no samples fails with the
insufficient-samples condition. -/
theorem calibrate_error_conditions_witness :
    (calibrate { newHandCalibration with
        calibration_samples := List.replicate 30 (50 : ℝ) } 30).2 = none ∧
    (calibrate { newHandCalibration with
        calibration_samples := List.replicate 30 (500 : ℝ) } 30).2 = none ∧
    (calibrate newHandCalibration 30).2 = some CalibError.insufficientSamples := by
  have hm1 : sampleMean { newHandCalibration with
      calibration_samples := List.replicate 30 (50 : ℝ) } = 50 := by
    simp [sampleMean, List.sum_replicate]
    norm_num
  have hm2 : sampleMean { newHandCalibration with
      calibration_samples := List.replicate 30 (500 : ℝ) } = 500 := by
    simp [sampleMean, List.sum_replicate]
    norm_num
  refine ⟨?_, ?_, ?_⟩
  · exact ((calibrate_error_conditions.2 _ 30 (by simp) (by simp)).2).mpr
      (by rw [hm1]; norm_num)
  · exact ((calibrate_error_conditions.2 _ 30 (by simp) (by simp)).2).mpr
      (by rw [hm2]; norm_num)
  · exact (calibrate_error_conditions.1 newHandCalibration 30).mpr
      (by simp [newHandCalibration])

/-- C1 counterexample: 30 samples of 405 px give a successful calibration
with mean 405 in `[50, 500]`, but the code computes
`click_threshold = int(405 * 0.12) = int(48.6) = 48` (truncation), while the
claim's formula `clamp(round(405 * 0.12), 30, 70) = round(48.6) = 49`
disagrees. -/
theorem calibrate_round_counterexample :
    (calibrate { newHandCalibration with
        calibration_samples := List.replicate 30 (405 : ℝ) } 30).2 = none ∧
    (calibrate { newHandCalibration with
        calibration_samples := List.replicate 30 (405 : ℝ) } 30).1.click_threshold
      = 48 ∧
    max 30 (min 70 (round ((405 : ℝ) * 0.12))) = 49 := by
  have hm : sampleMean { newHandCalibration with
      calibration_samples := List.replicate 30 (405 : ℝ) } = 405 := by
    simp [sampleMean, List.sum_replicate]
    norm_num
  have ht : pyTrunc (sampleMean { newHandCalibration with
      calibration_samples := List.replicate 30 (405 : ℝ) } * 0.12) = 48 := by
    rw [hm]
    norm_num [pyTrunc]
  rw [calibrate_eq_success _ 30 (by simp) (by rw [hm]; norm_num)
    (by rw [hm]; norm_num)]
  refine ⟨rfl, ?_, ?_⟩
  · simp only [ht]
    decide
  · rw [show round ((405 : ℝ) * 0.12) = 49 by norm_num [round_eq]]
    decide

/-- C1 (amended): a successful `calibrate` sets `hand_size` to the sample
mean, `click_threshold = clamp(trunc(mean * 0.12), 30, 70)` and
`exit_threshold = clamp(trunc(mean * 0.10), 25, 60)` — with `trunc` the
truncation toward zero performed by Python `int()`, not rounding to
nearest — and sets `calibrated = true`. -/
theorem calibrate_success_spec (cal : HandCalibration) (n : ℕ)
    (h1 : n ≤ cal.calibration_samples.length)
    (h2 : 50 ≤ sampleMean cal) (h3 : sampleMean cal ≤ 500) :
    (calibrate cal n).2 = none ∧
    (calibrate cal n).1.hand_size = some (sampleMean cal) ∧
    (calibrate cal n).1.click_threshold
      = max 30 (min 70 (pyTrunc (sampleMean cal * 0.12))) ∧
    (calibrate cal n).1.exit_threshold
      = max 25 (min 60 (pyTrunc (sampleMean cal * 0.10))) ∧
    (calibrate cal n).1.calibrated = true := by
  rw [calibrate_eq_success cal n h1 h2 h3]
  exact ⟨rfl, rfl, rfl, rfl, rfl⟩

/-- C1 witness (the spec scenario): 30 samples averaging 400 px succeed with
`click_threshold = 48` and `exit_threshold = 40`. -/
theorem calibrate_success_spec_witness :
    (calibrate { newHandCalibration with
        calibration_samples := List.replicate 30 (400 : ℝ) } 30).2 = none ∧
    (calibrate { newHandCalibration with
        calibration_samples := List.replicate 30 (400 : ℝ) } 30).1.click_threshold
      = 48 ∧
    (calibrate { newHandCalibration with
        calibration_samples := List.replicate 30 (400 : ℝ) } 30).1.exit_threshold
      = 40 := by
  have hm : sampleMean { newHandCalibration with
      calibration_samples := List.replicate 30 (400 : ℝ) } = 400 := by
    simp [sampleMean, List.sum_replicate]
    norm_num
  obtain ⟨e1, _, e3, e4, _⟩ := calibrate_success_spec
    { newHandCalibration with calibration_samples := List.replicate 30 (400 : ℝ) }
    30 (by simp) (by rw [hm]; norm_num) (by rw [hm]; norm_num)
  refine ⟨e1, ?_, ?_⟩
  · rw [e3, hm]
    rw [show pyTrunc ((400 : ℝ) * 0.12) = 48 by norm_num [pyTrunc]]
    decide
  · rw [e4, hm]
    rw [show pyTrunc ((400 : ℝ) * 0.10) = 40 by norm_num [pyTrunc]]
    decide

/-- C3 counterexample: a previously calibrated instance (hand_size 400) whose
session collected 30 implausible samples of 10 px fails with the
invalid-hand-size condition, yet the failed call has already overwritten
`hand_size` with the rejected mean 10. -/
theorem calibrate_failure_mutates_hand_size :
    ((calibrate ({ hand_size := some 400,
                   click_threshold := 48,
                   exit_threshold := 40,
                   calibrated := true,
                   calibration_samples := List.replicate 30 (10 : ℝ) } :
        HandCalibration) 30).2 = some CalibError.invalidHandSize) ∧
    ((calibrate ({ hand_size := some 400,
                   click_threshold := 48,
                   exit_threshold := 40,
                   calibrated := true,
                   calibration_samples := List.replicate 30 (10 : ℝ) } :
        HandCalibration) 30).1.hand_size ≠ some (400 : ℝ)) := by
  have hm : sampleMean ({
      hand_size := some 400,
      click_threshold := 48,
      exit_threshold := 40,
      calibrated := true,
      calibration_samples := List.replicate 30 (10 : ℝ) } : HandCalibration)
      = 10 := by
    simp [sampleMean, List.sum_replicate]
    norm_num
  rw [calibrate_eq_invalid _ 30 (by simp) (by rw [hm]; norm_num)]
  refine ⟨rfl, ?_⟩
  rw [hm]
  simp

/-- C3 (amended): a failed `calibrate` never changes `click_threshold`,
`exit_threshold`, `calibrated` or the sample list; the insufficient-samples
failure changes nothing at all, but the invalid-hand-size failure overwrites
`hand_size` with the rejected mean before raising.  A fresh instance with
fewer samples than required always fails insufficient and stays
uncalibrated. -/
theorem calibrate_failure_frame :
    (∀ (cal : HandCalibration) (n : ℕ) (e : CalibError),
      (calibrate cal n).2 = some e →
      ((calibrate cal n).1.click_threshold = cal.click_threshold ∧
       (calibrate cal n).1.exit_threshold = cal.exit_threshold ∧
       (calibrate cal n).1.calibrated = cal.calibrated ∧
       (calibrate cal n).1.calibration_samples = cal.calibration_samples) ∧
      (e = CalibError.insufficientSamples → (calibrate cal n).1 = cal) ∧
      (e = CalibError.invalidHandSize →
        (calibrate cal n).1.hand_size = some (sampleMean cal))) ∧
    (∀ (lms : List (List Landmark)) (n : ℕ), lms.length < n →
      (calibrate (List.foldl add_calibration_sample newHandCalibration lms) n).2
        = some CalibError.insufficientSamples ∧
      (calibrate (List.foldl add_calibration_sample newHandCalibration lms)
        n).1.calibrated = false) := by
  constructor
  · intro cal n e he
    by_cases hlen : cal.calibration_samples.length < n
    · rw [calibrate_eq_insufficient cal n hlen] at he ⊢
      refine ⟨⟨rfl, rfl, rfl, rfl⟩, fun _ => rfl, fun hinv => ?_⟩
      simp only [Option.some_inj] at he
      rw [← he] at hinv
      exact absurd hinv (by simp)
    · have h1 := Nat.not_lt.mp hlen
      by_cases hv : sampleMean cal < 50 ∨ sampleMean cal > 500
      · rw [calibrate_eq_invalid cal n h1 hv] at he ⊢
        refine ⟨⟨rfl, rfl, rfl, rfl⟩, fun hins => ?_, fun _ => rfl⟩
        simp only [Option.some_inj] at he
        rw [← he] at hins
        exact absurd hins (by simp)
      · push_neg at hv
        rw [calibrate_eq_success cal n h1 hv.1 hv.2] at he
        exact absurd he (by simp)
  · intro lms n hn
    obtain ⟨hlen, hcal, _⟩ := foldl_add_sample lms newHandCalibration
    have hlt : (List.foldl add_calibration_sample newHandCalibration
        lms).calibration_samples.length < n := by
      rw [hlen]
      simpa [newHandCalibration] using hn
    rw [calibrate_eq_insufficient _ n hlt]
    exact ⟨rfl, by rw [hcal]; rfl⟩

/-- C3 witness: `calibrate` with one missing sample leaves a fresh instance
exactly unchanged, and a fresh instance (zero samples collected) stays
uncalibrated after a failed `calibrate` with the default requirement of 30. -/
theorem calibrate_failure_frame_witness :
    (calibrate newHandCalibration 1).1 = newHandCalibration ∧
    (calibrate newHandCalibration 30).1.calibrated = false := by
  constructor
  · exact (calibrate_failure_frame.1 newHandCalibration 1
      CalibError.insufficientSamples
      (by rw [calibrate_eq_insufficient newHandCalibration 1
        (by simp [newHandCalibration])])).2.1 rfl
  · exact (calibrate_failure_frame.2 [] 30 (by norm_num)).2


/-- The detector state after `detect_click` has pushed the raw distance
through the click smoother (identity when smoothing is off or absent). -/
noncomputable def clickSmoothedState (st : GestureDetector) (lm : List Landmark) :
    GestureDetector :=
  if st.use_smoothing then
    match st.click_smoother with
    | some sm =>
      let q := sm.smooth (calculate_distance (landmarkAt lm 4) (landmarkAt lm 8))
      { st with click_smoother := some q.2 }
    | none => st
  else st

lemma clickSmoothedState_fields (st : GestureDetector) (lm : List Landmark) :
    (clickSmoothedState st lm).calibration = st.calibration ∧
    (clickSmoothedState st lm).click_delay = st.click_delay ∧
    (clickSmoothedState st lm).last_click_time = st.last_click_time ∧
    (clickSmoothedState st lm).use_smoothing = st.use_smoothing ∧
    (clickSmoothedState st lm).exit_smoother = st.exit_smoother := by
  unfold clickSmoothedState
  cases hu : st.use_smoothing <;> cases hsm : st.click_smoother <;> simp [hu, hsm]

lemma detect_click_eq (st : GestureDetector) (lm : List Landmark) (now : ℝ) :
    detect_click st lm now =
      if clickDistance st lm < (st.calibration.click_threshold : ℝ) ∧
          now - st.last_click_time > st.click_delay then
        ((true, clickDistance st lm),
         { clickSmoothedState st lm with last_click_time := now })
      else
        ((false, clickDistance st lm), clickSmoothedState st lm) := by
  unfold detect_click clickDistance clickSmoothedState
  cases hu : st.use_smoothing <;> cases hsm : st.click_smoother <;> simp

lemma validate_sample_iff (lm : List Landmark) :
    validate_sample lm = true ↔
      (lm.length = 21 ∧
       50 ≤ calculate_distance (landmarkAt lm 2) (landmarkAt lm 17) ∧
       calculate_distance (landmarkAt lm 2) (landmarkAt lm 17) ≤ 500) := by
  unfold validate_sample calculate_distance
  by_cases hl : lm.length = 21
  · rw [if_neg (by simpa using hl)]
    simp [hl]
  · rw [if_pos (by simpa using hl)]
    simp [hl]

/-- C6: every push into a smoothing buffer of window `W` returns the
arithmetic mean of the values currently buffered — the at most `W` most
recent pushes — so the output is well-defined from the very first push with
no zero-padding (for fewer than `W` pushes it is the mean of all of them),
and after `k ≥ W` pushes it is the mean of exactly the last `W` pushed
values. -/
theorem smooth_sliding_window (W : ℕ) (hW : 0 < W) (vs : List ℝ) (v : ℝ) :
    (vs.length + 1 ≤ W →
      ((smoothAll (newGestureSmoothing W) vs).smooth v).1
        = (vs ++ [v]).sum / ((vs.length + 1 : ℕ) : ℝ)) ∧
    (W ≤ vs.length + 1 →
      ((smoothAll (newGestureSmoothing W) vs).smooth v).1
        = ((vs ++ [v]).drop (vs.length + 1 - W)).sum / (W : ℝ)) := by
  obtain ⟨hw, hd⟩ := smoothAll_spec vs (newGestureSmoothing W)
    (by simp [newGestureSmoothing])
  have key : ((smoothAll (newGestureSmoothing W) vs).smooth v).1
      = (lastWindow W (vs ++ [v])).sum / ((lastWindow W (vs ++ [v])).length : ℝ) := by
    rw [smooth_eq, hw, hd]
    simp only [newGestureSmoothing, List.nil_append]
    rw [lastWindow_append]
  constructor
  · intro h
    rw [key, lastWindow_of_le (by simp; omega)]
    simp
  · intro h
    rw [key, lastWindow_length, min_eq_left (by simp; omega)]
    unfold lastWindow
    simp

/-- C6 witness: window 2, pushes 1, 3, 5; the third output is the mean of
the last two values, (3 + 5) / 2 = 4. -/
theorem smooth_sliding_window_witness :
    ((smoothAll (newGestureSmoothing 2) [1, 3]).smooth 5).1 = 4 := by
  have h := (smooth_sliding_window 2 (by norm_num) [1, 3] 5).2 (by simp)
  rw [h]
  norm_num

/-- C7: for every smoothing buffer (of positive window size) in any state,
resetting it and then pushing `v` returns exactly `v`; and the detector's
`reset_smoothing` applies exactly this reset to both of its smoothers. -/
theorem reset_then_push_identity (sm : GestureSmoothing) (v : ℝ)
    (h : 0 < sm.window_size) :
    ((sm.reset).smooth v).1 = v ∧
    ∀ st : GestureDetector,
      (reset_smoothing st).click_smoother
          = st.click_smoother.map GestureSmoothing.reset ∧
      (reset_smoothing st).exit_smoother
          = st.exit_smoother.map GestureSmoothing.reset := by
  constructor
  · rw [smooth_eq]
    show (lastWindow sm.window_size ([] ++ [v])).sum
        / ((lastWindow sm.window_size ([] ++ [v])).length : ℝ) = v
    rw [List.nil_append, lastWindow_of_le (by simp; omega)]
    simp
  · intro st
    exact ⟨rfl, rfl⟩

/-- C7 witness: a window-5 buffer holding 10 and 20, after a reset, returns
exactly 7 on the next push of 7. -/
theorem reset_then_push_identity_witness :
    (((⟨5, [10, 20]⟩ : GestureSmoothing).reset).smooth 7).1 = 7 :=
  (reset_then_push_identity ⟨5, [10, 20]⟩ 7 (by norm_num)).1


/-- C2: `detect_click` returns `(true, d)` — `d` the optionally smoothed
planar distance between landmarks 4 and 8 — and sets `last_click_time` to
`now`, exactly when `d` is strictly below the click threshold and strictly
more than `click_delay` has elapsed since the last click; otherwise it
returns `(false, d)` and keeps `last_click_time`.  The condition is
level-triggered: after a fire, any later tick whose smoothed distance is
under the (unchanged) threshold fires again once `click_delay` has passed
since the fire. -/
theorem detect_click_spec (st : GestureDetector) (lm : List Landmark) (now : ℝ) :
    ((detect_click st lm now).1.1 = true ↔
      (clickDistance st lm < (st.calibration.click_threshold : ℝ) ∧
       now - st.last_click_time > st.click_delay)) ∧
    (detect_click st lm now).1.2 = clickDistance st lm ∧
    ((detect_click st lm now).1.1 = true →
      (detect_click st lm now).2.last_click_time = now) ∧
    ((detect_click st lm now).1.1 = false →
      (detect_click st lm now).2.last_click_time = st.last_click_time) ∧
    (detect_click st lm now).2.calibration = st.calibration ∧
    (detect_click st lm now).2.click_delay = st.click_delay ∧
    ((detect_click st lm now).1.1 = true →
      ∀ (lm2 : List Landmark) (now2 : ℝ),
        clickDistance ((detect_click st lm now).2) lm2
            < (st.calibration.click_threshold : ℝ) →
        now2 - now > st.click_delay →
        (detect_click ((detect_click st lm now).2) lm2 now2).1.1 = true) := by
  obtain ⟨hc, hdly, hlast, _, _⟩ := clickSmoothedState_fields st lm
  rw [detect_click_eq st lm now]
  by_cases h : clickDistance st lm < (st.calibration.click_threshold : ℝ) ∧
      now - st.last_click_time > st.click_delay
  · rw [if_pos h]
    refine ⟨⟨fun _ => h, fun _ => rfl⟩, rfl, fun _ => rfl,
      fun hf => absurd hf (by simp), hc, hdly, ?_⟩
    intro _ lm2 now2 hd2 hn2
    have h1 : ({ clickSmoothedState st lm with
        last_click_time := now } : GestureDetector).calibration
        = st.calibration := hc
    have h2 : ({ clickSmoothedState st lm with
        last_click_time := now } : GestureDetector).click_delay
        = st.click_delay := hdly
    rw [detect_click_eq, if_pos ⟨by rw [h1]; exact hd2, by rw [h2]; exact hn2⟩]
  · rw [if_neg h]
    exact ⟨iff_of_false (by simp) h, rfl, fun ht => absurd ht (by simp),
      fun _ => hlast, hc, hdly, fun ht => absurd ht (by simp)⟩

/-- C2 witness: a fresh detector (threshold 50, delay 0.7, last click at 0)
seeing thumb tip (0,0) and index tip (3,4) — raw and smoothed distance 5 —
at time 1 fires a click. -/
theorem detect_click_spec_witness :
    (detect_click (newGestureDetector 0.7 true none)
      [⟨0, 0, 0⟩, ⟨0, 0, 0⟩, ⟨0, 0, 0⟩, ⟨0, 0, 0⟩, ⟨0, 0, 0⟩, ⟨0, 0, 0⟩,
       ⟨0, 0, 0⟩, ⟨0, 0, 0⟩, ⟨3, 4, 0⟩] 1).1.1 = true := by
  have hraw : calculate_distance
      (landmarkAt [⟨0, 0, 0⟩, ⟨0, 0, 0⟩, ⟨0, 0, 0⟩, ⟨0, 0, 0⟩, ⟨0, 0, 0⟩,
        ⟨0, 0, 0⟩, ⟨0, 0, 0⟩, ⟨0, 0, 0⟩, ⟨3, 4, 0⟩] 4)
      (landmarkAt [⟨0, 0, 0⟩, ⟨0, 0, 0⟩, ⟨0, 0, 0⟩, ⟨0, 0, 0⟩, ⟨0, 0, 0⟩,
        ⟨0, 0, 0⟩, ⟨0, 0, 0⟩, ⟨0, 0, 0⟩, ⟨3, 4, 0⟩] 8) = 5 := by
    show Real.sqrt (((0 : ℝ) - 3) ^ 2 + ((0 : ℝ) - 4) ^ 2) = 5
    exact sqrt_eval (by norm_num) (by norm_num)
  have h5 : clickDistance (newGestureDetector 0.7 true none)
      [⟨0, 0, 0⟩, ⟨0, 0, 0⟩, ⟨0, 0, 0⟩, ⟨0, 0, 0⟩, ⟨0, 0, 0⟩, ⟨0, 0, 0⟩,
       ⟨0, 0, 0⟩, ⟨0, 0, 0⟩, ⟨3, 4, 0⟩] = 5 := by
    show (GestureSmoothing.smooth (newGestureSmoothing 5)
      (calculate_distance
        (landmarkAt [⟨0, 0, 0⟩, ⟨0, 0, 0⟩, ⟨0, 0, 0⟩, ⟨0, 0, 0⟩, ⟨0, 0, 0⟩,
          ⟨0, 0, 0⟩, ⟨0, 0, 0⟩, ⟨0, 0, 0⟩, ⟨3, 4, 0⟩] 4)
        (landmarkAt [⟨0, 0, 0⟩, ⟨0, 0, 0⟩, ⟨0, 0, 0⟩, ⟨0, 0, 0⟩, ⟨0, 0, 0⟩,
          ⟨0, 0, 0⟩, ⟨0, 0, 0⟩, ⟨0, 0, 0⟩, ⟨3, 4, 0⟩] 8))).1 = 5
    rw [hraw, smooth_eq]
    norm_num [newGestureSmoothing, lastWindow]
  refine (detect_click_spec (newGestureDetector 0.7 true none) _ 1).1.mpr ⟨?_, ?_⟩
  · rw [h5]
    show (5 : ℝ) < ((50 : ℤ) : ℝ)
    norm_num
  · show (1 : ℝ) - 0 > 0.7
    norm_num

/-- C10: `detect_exit` never changes `last_click_time`, the click smoothing
buffer, the installed calibration (hence none of its fields), the click
delay or the smoothing flag; the exit smoother is the only detector state it
may modify. -/
theorem detect_exit_frame (st : GestureDetector) (lm : List Landmark) :
    (detect_exit st lm).2.last_click_time = st.last_click_time ∧
    (detect_exit st lm).2.click_smoother = st.click_smoother ∧
    (detect_exit st lm).2.calibration = st.calibration ∧
    (detect_exit st lm).2.click_delay = st.click_delay ∧
    (detect_exit st lm).2.use_smoothing = st.use_smoothing := by
  unfold detect_exit
  cases hu : st.use_smoothing <;> cases hsm : st.exit_smoother <;> simp [hu, hsm]

/-- C4: one collecting tick appends the planar span between landmarks 2 and
17 to the sample set, and advances the collected count, exactly when the
sample validates (21 landmarks and span within `[50, 500]`); an out-of-range
span is rejected with a `false` flag and changes neither the calibration
state nor the count. -/
theorem collect_sample_validation (cal : HandCalibration) (cnt : ℕ)
    (lm : List Landmark) :
    (validate_sample lm = true →
      collectStep cal cnt lm = (add_calibration_sample cal lm, cnt + 1, true) ∧
      (add_calibration_sample cal lm).calibration_samples
        = cal.calibration_samples
            ++ [calculate_distance (landmarkAt lm 2) (landmarkAt lm 17)] ∧
      50 ≤ calculate_distance (landmarkAt lm 2) (landmarkAt lm 17) ∧
      calculate_distance (landmarkAt lm 2) (landmarkAt lm 17) ≤ 500) ∧
    (¬ (50 ≤ calculate_distance (landmarkAt lm 2) (landmarkAt lm 17) ∧
         calculate_distance (landmarkAt lm 2) (landmarkAt lm 17) ≤ 500) →
      collectStep cal cnt lm = (cal, cnt, false)) := by
  constructor
  · intro hv
    have hr := (validate_sample_iff lm).mp hv
    refine ⟨?_, rfl, hr.2.1, hr.2.2⟩
    unfold collectStep
    rw [if_pos hv]
  · intro hnr
    have hf : ¬ (validate_sample lm = true) := by
      rw [validate_sample_iff]
      intro hcon
      exact hnr hcon.2
    unfold collectStep
    rw [if_neg hf]

/-- C4 witness: a 21-landmark frame with thumb base (0,0) and pinky base
(60,0) — span 60, in range — is accepted and advances the count from 0
to 1. -/
theorem collect_sample_validation_witness :
    collectStep newHandCalibration 0
      [⟨0, 0, 0⟩, ⟨0, 0, 0⟩, ⟨0, 0, 0⟩, ⟨0, 0, 0⟩, ⟨0, 0, 0⟩, ⟨0, 0, 0⟩,
       ⟨0, 0, 0⟩, ⟨0, 0, 0⟩, ⟨0, 0, 0⟩, ⟨0, 0, 0⟩, ⟨0, 0, 0⟩, ⟨0, 0, 0⟩,
       ⟨0, 0, 0⟩, ⟨0, 0, 0⟩, ⟨0, 0, 0⟩, ⟨0, 0, 0⟩, ⟨0, 0, 0⟩, ⟨60, 0, 0⟩,
       ⟨0, 0, 0⟩, ⟨0, 0, 0⟩, ⟨0, 0, 0⟩]
      = (add_calibration_sample newHandCalibration
          [⟨0, 0, 0⟩, ⟨0, 0, 0⟩, ⟨0, 0, 0⟩, ⟨0, 0, 0⟩, ⟨0, 0, 0⟩, ⟨0, 0, 0⟩,
           ⟨0, 0, 0⟩, ⟨0, 0, 0⟩, ⟨0, 0, 0⟩, ⟨0, 0, 0⟩, ⟨0, 0, 0⟩, ⟨0, 0, 0⟩,
           ⟨0, 0, 0⟩, ⟨0, 0, 0⟩, ⟨0, 0, 0⟩, ⟨0, 0, 0⟩, ⟨0, 0, 0⟩, ⟨60, 0, 0⟩,
           ⟨0, 0, 0⟩, ⟨0, 0, 0⟩, ⟨0, 0, 0⟩], 1, true) := by
  have hspan : calculate_distance
      (landmarkAt [⟨0, 0, 0⟩, ⟨0, 0, 0⟩, ⟨0, 0, 0⟩, ⟨0, 0, 0⟩, ⟨0, 0, 0⟩,
        ⟨0, 0, 0⟩, ⟨0, 0, 0⟩, ⟨0, 0, 0⟩, ⟨0, 0, 0⟩, ⟨0, 0, 0⟩, ⟨0, 0, 0⟩,
        ⟨0, 0, 0⟩, ⟨0, 0, 0⟩, ⟨0, 0, 0⟩, ⟨0, 0, 0⟩, ⟨0, 0, 0⟩, ⟨0, 0, 0⟩,
        ⟨60, 0, 0⟩, ⟨0, 0, 0⟩, ⟨0, 0, 0⟩, ⟨0, 0, 0⟩] 2)
      (landmarkAt [⟨0, 0, 0⟩, ⟨0, 0, 0⟩, ⟨0, 0, 0⟩, ⟨0, 0, 0⟩, ⟨0, 0, 0⟩,
        ⟨0, 0, 0⟩, ⟨0, 0, 0⟩, ⟨0, 0, 0⟩, ⟨0, 0, 0⟩, ⟨0, 0, 0⟩, ⟨0, 0, 0⟩,
        ⟨0, 0, 0⟩, ⟨0, 0, 0⟩, ⟨0, 0, 0⟩, ⟨0, 0, 0⟩, ⟨0, 0, 0⟩, ⟨0, 0, 0⟩,
        ⟨60, 0, 0⟩, ⟨0, 0, 0⟩, ⟨0, 0, 0⟩, ⟨0, 0, 0⟩] 17) = 60 := by
    show Real.sqrt (((0 : ℝ) - 60) ^ 2 + ((0 : ℝ) - 0) ^ 2) = 60
    exact sqrt_eval (by norm_num) (by norm_num)
  exact ((collect_sample_validation newHandCalibration 0 _).1
    (by rw [validate_sample_iff]
        exact ⟨rfl, by rw [hspan]; norm_num, by rw [hspan]; norm_num⟩)).1

/-- C8: saving a calibrated instance and loading the stored record into any
other instance restores `hand_size`, `click_threshold` and `exit_threshold`
exactly, marks the target calibrated, and reports success. -/
theorem save_load_round_trip (cal cal2 : HandCalibration) (r : JsonRecord)
    (h : cal.calibrated = true) (hr : save_calibration cal = some r) :
    (load_calibration cal2 (.content r)).2 = true ∧
    (load_calibration cal2 (.content r)).1.hand_size = cal.hand_size ∧
    (load_calibration cal2 (.content r)).1.click_threshold
      = cal.click_threshold ∧
    (load_calibration cal2 (.content r)).1.exit_threshold
      = cal.exit_threshold ∧
    (load_calibration cal2 (.content r)).1.calibrated = true := by
  unfold save_calibration at hr
  rw [if_pos h] at hr
  have hre : ({ hand_size := some cal.hand_size,
                click_threshold := some cal.click_threshold,
                exit_threshold := some cal.exit_threshold } : JsonRecord) = r :=
    Option.some_inj.mp hr
  subst hre
  simp [load_calibration]

/-- C8 witness: a calibrated instance with hand size 400 and thresholds
48/40 round-trips through the stored record into a fresh instance. -/
theorem save_load_round_trip_witness :
    (load_calibration newHandCalibration
      (LoadSource.content { hand_size := some (some 400),
                            click_threshold := some 48,
                            exit_threshold := some 40 })).1.click_threshold
      = 48 :=
  (save_load_round_trip
    ({ hand_size := some 400,
       click_threshold := 48,
       exit_threshold := 40,
       calibrated := true,
       calibration_samples := [] } : HandCalibration)
    newHandCalibration
    { hand_size := some (some 400),
      click_threshold := some 48,
      exit_threshold := some 40 }
    rfl rfl).2.2.1

/-- C9 counterexample: a parseable record missing the `exit_threshold` key
makes the load fail (returns `false`, no error propagated), yet the fresh
instance does not fall back to the default state: its `click_threshold` has
already been overwritten to 60 (default is 50). -/
theorem load_partial_record_counterexample :
    (load_calibration newHandCalibration
      (LoadSource.content { hand_size := some (some 300),
                            click_threshold := some 60,
                            exit_threshold := none })).2 = false ∧
    (load_calibration newHandCalibration
      (LoadSource.content { hand_size := some (some 300),
                            click_threshold := some 60,
                            exit_threshold := none })).1.click_threshold = 60 ∧
    newHandCalibration.click_threshold = 50 :=
  ⟨rfl, rfl, rfl⟩

/-- C9 (amended): `load_calibration` never propagates an error; a missing
file and an unreadable or unparseable file leave the instance exactly
unchanged (a fresh instance keeps the default thresholds 50/40 with
`calibrated = false`); no failed load ever changes `calibrated`, but a
parseable record missing a key leaves the fields assigned before the missing
key overwritten. -/
theorem load_failure_fallback :
    (∀ cal : HandCalibration,
      load_calibration cal LoadSource.missingFile = (cal, false)) ∧
    (∀ cal : HandCalibration,
      load_calibration cal LoadSource.unreadable = (cal, false)) ∧
    (∀ (cal : HandCalibration) (src : LoadSource),
      (load_calibration cal src).2 = false →
      (load_calibration cal src).1.calibrated = cal.calibrated) ∧
    (newHandCalibration.click_threshold = 50 ∧
     newHandCalibration.exit_threshold = 40 ∧
     newHandCalibration.calibrated = false) := by
  refine ⟨fun cal => rfl, fun cal => rfl, ?_, rfl, rfl, rfl⟩
  intro cal src h
  cases src with
  | missingFile => rfl
  | unreadable => rfl
  | content r =>
    rcases r with ⟨hs, ct, et⟩
    cases hs with
    | none => rfl
    | some hs2 =>
      cases ct with
      | none => rfl
      | some ct2 =>
        cases et with
        | none => rfl
        | some et2 => simp [load_calibration] at h

/-- C9 witness: loading from a missing file leaves a fresh instance's
`calibrated` flag unchanged. -/
theorem load_failure_fallback_witness :
    (load_calibration newHandCalibration LoadSource.missingFile).1.calibrated
      = newHandCalibration.calibrated :=
  load_failure_fallback.2.2.1 newHandCalibration LoadSource.missingFile rfl

end TouchlessKeyboard
